import Mathlib

/-!
Verification development for the hierarchical GDP-per-capita / population
timeseries providers (src/Python/gdppc.py, src/Python/provider.py,
src/Python/pop.py).

The pandas tables are modelled as lists of records; numeric values are ℚ
(the float arithmetic in the source is multiplicative and structural, so
exact rationals are the shallow embedding of its scalars); a value that can
be NaN (the nightlight ratio column) is Option ℚ with none for NaN;
operations that can raise in Python return Except String.
-/

attribute [local semireducible] Rat.mul Rat.add Rat.inv Rat.sub

deriving instance DecidableEq for Except

/-- Python slicing s[:n] on an ASCII identifier string. -/
def pyTake (s : String) (n : Nat) : String := ⟨s.data.take n⟩

/-- Model of numpy ndarray.item(): succeeds exactly on a size-1 array,
otherwise raises ValueError. -/
def npItem (xs : List ℚ) : Except String ℚ :=
  match xs with
  | [x] => Except.ok x
  | _ => Except.error "can only convert an array of size 1 to a Python scalar"

/-- Insert into a sorted list of rationals (ascending). -/
def insertSorted (x : ℚ) : List ℚ → List ℚ
  | [] => [x]
  | y :: ys => if x ≤ y then x :: y :: ys else y :: insertSorted x ys

/-- Ascending sort of a list of rationals. -/
def sortRats (xs : List ℚ) : List ℚ := xs.foldr insertSorted []

/-- Pandas median of a numeric column: middle element of the sorted values
for an odd count, average of the two middle elements for an even count.
(Pandas yields NaN on an empty column; the providers below only take
medians of nonempty groups, where this definition is exact.) -/
def median (xs : List ℚ) : ℚ :=
  let s := sortRats xs
  if s.length % 2 == 1 then s.getD (s.length / 2) 0
  else (s.getD (s.length / 2 - 1) 0 + s.getD (s.length / 2) 0) / 2

/-- Keys of a groupby, deduplicated; accumulator-based so that membership
facts follow by structural induction. Key order is irrelevant to every use
(all access is by lookup of a unique key). -/
def dedupAppend [BEq α] (acc : List α) : List α → List α
  | [] => acc
  | x :: xs => dedupAppend (if acc.contains x then acc else acc ++ [x]) xs

/-- Distinct keys of a list, used to model DataFrame.groupby group keys. -/
def keysInOrder [BEq α] (xs : List α) : List α := dedupAppend [] xs

/-- Row of the GDPpc baseline table (gdppc.py: df_baseline):
columns model, scenario (scen), year, iso, value. -/
structure BaselineRow where
  model : String
  scen : String
  year : Int
  iso : String
  value : ℚ
deriving DecidableEq

/-- Row of the GDPpc growth table (gdppc.py: df_growth):
columns model, scenario (scen), year, iso, growth. -/
structure GrowthRow where
  model : String
  scen : String
  year : Int
  iso : String
  growth : ℚ
deriving DecidableEq

/-- Resolved baseline row as consumed by get_iso_timeseries: the iso key and
the value column. (The aggregated/global tiers are one-row Series whose
numeric year entry is never read; it is dropped here.) -/
structure BRow where
  iso : String
  value : ℚ
deriving DecidableEq

/-- Resolved growth row as consumed by the compounding loop: the iso key,
the yearindex column (a float in pandas after groupby().median(), hence ℚ),
and the growth factor. -/
structure GRow where
  iso : String
  yearindex : ℚ
  growth : ℚ
deriving DecidableEq

/-- Row of the nightlights table (gdppc.py: df_nightlights): the hierid key
and the gdppc_ratio column (gdppc_rv here); none models NaN. -/
structure NLRow where
  hierid : String
  gdppc_rv : Option ℚ
deriving DecidableEq

/-- State of a HierarchicalGDPpcProvider after __init__ (gdppc.py lines
157-172): the three baseline tiers, the three growth tiers, the nightlights
table, and the configured year range. -/
structure GDPpcState where
  startyear : Int
  stopyear : Int
  baseline_this : List BRow
  baseline_anyiam : List (String × List BRow)
  baseline_global : List BRow
  growth_this : List GRow
  growth_anyiam : List (String × List GRow)
  growth_global : List GRow
  nightlights : List NLRow

/-- Rows of df_baseline with the active scenario and the baseline year
(the mask shared by lines 162-164 of gdppc.py). -/
def baselineSel (ssp : String) (sy : Int) (dfb : List BaselineRow) : List BaselineRow :=
  dfb.filter (fun r => r.scen == ssp && r.year == sy)

/-- Line 162: df_baseline_this, rows of the active model, scenario and year. -/
def baselineThisOf (iam ssp : String) (sy : Int) (dfb : List BaselineRow) : List BRow :=
  (dfb.filter (fun r => r.model == iam && r.scen == ssp && r.year == sy)).map
    (fun r => ⟨r.iso, r.value⟩)

/-- Line 163: df_baseline_anyiam, groupby iso of the scenario/year rows with
the median of the numeric columns per group (the unused year median is
dropped). Indexed by iso; each loc result is the single aggregated row. -/
def baselineAnyiamOf (ssp : String) (sy : Int) (dfb : List BaselineRow) :
    List (String × List BRow) :=
  (keysInOrder ((baselineSel ssp sy dfb).map (fun r => r.iso))).map
    (fun i =>
      (i, [⟨i, median (((baselineSel ssp sy dfb).filter (fun r => r.iso == i)).map
        (fun r => r.value))⟩]))

/-- Line 164: baseline_global, the median of the value column over all
scenario/year rows (all models), as a single fallback row. -/
def baselineGlobalOf (ssp : String) (sy : Int) (dfb : List BaselineRow) : List BRow :=
  [⟨"", median ((baselineSel ssp sy dfb).map (fun r => r.value))⟩]

/-- Line 167: the yearindex column added to df_growth,
np.int_((year - startyear) / 5); float division truncated toward zero. -/
def withYearindex (sy : Int) (dfg : List GrowthRow) : List (GrowthRow × Int) :=
  dfg.map (fun r => (r, Int.tdiv (r.year - sy) 5))

/-- Line 168: df_growth_this, growth rows of the active model and scenario. -/
def growthThisOf (iam ssp : String) (sy : Int) (dfg : List GrowthRow) : List GRow :=
  ((withYearindex sy dfg).filter (fun p => p.1.model == iam && p.1.scen == ssp)).map
    (fun p => ⟨p.1.iso, (p.2 : ℚ), p.1.growth⟩)

/-- Growth rows of the active scenario (the mask of line 169). -/
def growthSel (ssp : String) (sy : Int) (dfg : List GrowthRow) : List (GrowthRow × Int) :=
  (withYearindex sy dfg).filter (fun p => p.1.scen == ssp)

/-- Line 169: df_growth_anyiam, groupby (iso, year) of the scenario rows
with per-group medians of the numeric columns (yearindex, growth), indexed
by iso: loc of an iso yields its per-year aggregated rows. -/
def growthAnyiamOf (ssp : String) (sy : Int) (dfg : List GrowthRow) :
    List (String × List GRow) :=
  (keysInOrder ((growthSel ssp sy dfg).map (fun p => p.1.iso))).map
    (fun i =>
      (i, (keysInOrder (((growthSel ssp sy dfg).filter (fun p => p.1.iso == i)).map
            (fun p => p.1.year))).map
        (fun y =>
          ⟨i,
            median ((((growthSel ssp sy dfg).filter (fun p => p.1.iso == i)).filter
              (fun p => p.1.year == y)).map (fun p => (p.2 : ℚ))),
            median ((((growthSel ssp sy dfg).filter (fun p => p.1.iso == i)).filter
              (fun p => p.1.year == y)).map (fun p => p.1.growth))⟩)))

/-- Line 170: growth_global, rows of the active scenario AND active model,
grouped by year with per-group medians of the numeric columns. Note the
model == iam mask: this tier aggregates within the active model only. -/
def growthGlobalOf (iam ssp : String) (sy : Int) (dfg : List GrowthRow) : List GRow :=
  (keysInOrder (((withYearindex sy dfg).filter
      (fun p => p.1.scen == ssp && p.1.model == iam)).map (fun p => p.1.year))).map
    (fun y =>
      ⟨"",
        median ((((withYearindex sy dfg).filter
          (fun p => p.1.scen == ssp && p.1.model == iam)).filter
            (fun p => p.1.year == y)).map (fun p => (p.2 : ℚ))),
        median ((((withYearindex sy dfg).filter
          (fun p => p.1.scen == ssp && p.1.model == iam)).filter
            (fun p => p.1.year == y)).map (fun p => p.1.growth))⟩)

/-- HierarchicalGDPpcProvider.__init__ (gdppc.py lines 157-172). -/
def mkGDPpcProvider (iam ssp : String) (dfb : List BaselineRow) (dfg : List GrowthRow)
    (dfn : List NLRow) (sy ty : Int) : GDPpcState :=
  { startyear := sy
    stopyear := ty
    baseline_this := baselineThisOf iam ssp sy dfb
    baseline_anyiam := baselineAnyiamOf ssp sy dfb
    baseline_global := baselineGlobalOf ssp sy dfb
    growth_this := growthThisOf iam ssp sy dfg
    growth_anyiam := growthAnyiamOf ssp sy dfg
    growth_global := growthGlobalOf iam ssp sy dfg
    nightlights := dfn }

/-- HierarchicalGDPpcProvider._get_best_iso_available (gdppc.py lines
174-185), generic over the duck-typed row type: filter the model-specific
table by iso and return the selection if nonempty; else if the iso is in
the aggregated index, return its selection if nonempty; else return the
global table unfiltered. -/
def getBestIsoAvailable {α : Type} (isoOf : α → String) (iso : String)
    (dfThis : List α) (dfAnyiam : List (String × List α)) (dfGlobal : List α) : List α :=
  let df := dfThis.filter (fun r => isoOf r == iso)
  if 0 < df.length then df
  else
    match dfAnyiam.lookup iso with
    | some rows => if 0 < rows.length then rows else dfGlobal
    | none => dfGlobal

/-- The baseline resolution call of get_iso_timeseries (lines 203-208). -/
def resolveBaseline (st : GDPpcState) (iso : String) : List BRow :=
  getBestIsoAvailable BRow.iso iso st.baseline_this st.baseline_anyiam st.baseline_global

/-- The growth resolution call of get_iso_timeseries (lines 214-219). -/
def resolveGrowth (st : GDPpcState) (iso : String) : List GRow :=
  getBestIsoAvailable GRow.iso iso st.growth_this st.growth_anyiam st.growth_global

/-- Line 225: df_growth.loc[df_growth.yearindex == yearindex].growth.values,
the growth factors of the resolved table whose yearindex equals the loop
counter value. -/
def growthLookup (dfg : List GRow) (yi : Nat) : List ℚ :=
  (dfg.filter (fun r => r.yearindex == (yi : ℚ))).map (fun r => r.growth)

/-- Lines 223-227: the compounding loop. For loop step i (year =
startyear + 1 + i), yearindex = (year - 1 - startyear) / 5 = i / 5; the
scalar-times-array product gdppcs[-1] * growthrate is converted to a scalar
by .item(), which raises unless exactly one growth row matched. -/
def compoundLoop (dfg : List GRow) : ℚ → Nat → Nat → Except String (List ℚ)
  | _, _, 0 => Except.ok []
  | last, i, steps + 1 =>
    match npItem ((growthLookup dfg (i / 5)).map (fun gr => last * gr)) with
    | Except.error e => Except.error e
    | Except.ok g =>
      match compoundLoop dfg g (i + 1) steps with
      | Except.error e => Except.error e
      | Except.ok rest => Except.ok (g :: rest)

/-- HierarchicalGDPpcProvider.get_iso_timeseries (gdppc.py lines 199-229):
resolve the baseline (first row's value; IndexError on an empty resolution),
resolve the growth table, then compound year by year from startyear + 1 to
stopyear. The lru_cache decorator memoizes a pure function and is identity
on the value computed. -/
def get_iso_timeseries (st : GDPpcState) (iso : String) : Except String (List ℚ) :=
  match (resolveBaseline st iso).head? with
  | none => Except.error "IndexError: index 0 is out of bounds"
  | some r =>
    match compoundLoop (resolveGrowth st iso) r.value 0 (st.stopyear - st.startyear).toNat with
    | Except.error e => Except.error e
    | Except.ok rest => Except.ok (r.value :: rest)

/-- HierarchicalGDPpcProvider.get_timeseries (gdppc.py lines 187-197):
coarse series for hierid[:3]; no nightlight row for the hierid returns the
coarse series; a NaN or zero ratio returns 0.8 times it; otherwise the
series is scaled by the ratio. -/
def get_timeseries (st : GDPpcState) (hierid : String) : Except String (List ℚ) :=
  match get_iso_timeseries st (pyTake hierid 3) with
  | Except.error e => Except.error e
  | Except.ok iso_gdppcs =>
    match ((st.nightlights.filter (fun r => r.hierid == hierid)).map
        (fun r => r.gdppc_rv)).head? with
    | none => Except.ok iso_gdppcs
    | some none => Except.ok (iso_gdppcs.map (fun x => (4/5 : ℚ) * x))
    | some (some v) =>
      if v = 0 then Except.ok (iso_gdppcs.map (fun x => (4/5 : ℚ) * x))
      else Except.ok (iso_gdppcs.map (fun x => x * v))

/-- State of BySpaceTimeFromSpaceProvider (provider.py): the per-region
cache dict. The wrapped provider is modelled as a pure function from region
to series: get_timeseries of the wrapped provider is deterministic in its
construction-time tables. -/
structure CacheState where
  cache : List (String × List ℚ)
deriving DecidableEq

/-- BySpaceTimeFromSpaceProvider.reset (provider.py lines 30-31). -/
def stc_reset : CacheState := ⟨[]⟩

/-- BySpaceTimeFromSpaceProvider.get_timeseries (provider.py lines 46-47):
a straight delegation to the wrapped provider; the state is not touched. -/
def stc_get_timeseries (wrapped : String → List ℚ) (st : CacheState) (region : String) :
    List ℚ × CacheState :=
  (wrapped region, st)

/-- BySpaceTimeFromSpaceProvider.get_value (provider.py lines 33-41):
populate the cache for the region on first access, then return the first
entry when time < startyear, else the entry at offset time - startyear
(none models the IndexError of an out-of-range numpy index). -/
def stc_get_value (wrapped : String → List ℚ) (startyear : Int) (st : CacheState)
    (region : String) (time : Int) : Option ℚ × CacheState :=
  let cache :=
    match st.cache.lookup region with
    | some _ => st.cache
    | none => (region, wrapped region) :: st.cache
  let series := (cache.lookup region).getD []
  (if time < startyear then series.get? 0 else series.get? (time - startyear).toNat, ⟨cache⟩)

/-- Names bound in the module scope of src/Python/pop.py at the moment the
class body of HierarchicalPopulationProvider executes: the imports of lines
1-6 bind warn, np, pd, os, files and provider, and line 9 binds
read_hierarchicalpopprovider. Unlike gdppc.py line 1, lru_cache is never
imported. -/
def popModuleScope : List String :=
  ["warn", "np", "pd", "os", "files", "provider", "read_hierarchicalpopprovider"]

/-- Python name resolution: a free name either resolves in the enclosing
scope or raises NameError. -/
def pyLookupName (env : List String) (n : String) : Except String Unit :=
  if n ∈ env then Except.ok ()
  else Except.error ("NameError: name " ++ n ++ " is not defined")

/-- Reference form of the compounding loop body: the list of values produced
by steps many loop iterations when each period lookup yields exactly one
factor, written as a recurrence (step i multiplies by the factor of period
i / 5). compoundLoop is proved equal to it under that hypothesis. -/
def seriesFrom (g : Nat → ℚ) : ℚ → Nat → Nat → List ℚ
  | _, _, 0 => []
  | last, i, steps + 1 => (last * g (i / 5)) :: seriesFrom g (last * g (i / 5)) (i + 1) steps

/-- Concrete baseline table: one row, model low, scenario SSP3, year 2010,
iso ABC, value 100. -/
def demoBaseline : List BaselineRow := [⟨"low", "SSP3", 2010, "ABC", 100⟩]

/-- Concrete growth table with factors 1.05 for period 0 and 1.1 for
period 1. -/
def demoGrowth : List GrowthRow :=
  [⟨"low", "SSP3", 2010, "ABC", 21/20⟩, ⟨"low", "SSP3", 2015, "ABC", 11/10⟩]

/-- The growth factors of demoGrowth as a function of the period index. -/
def demoG (i : Nat) : ℚ := if i = 0 then 21/20 else 11/10

/-- Provider over demoBaseline and demoGrowth for years 2010-2016. -/
def demoSt : GDPpcState := mkGDPpcProvider "low" "SSP3" demoBaseline demoGrowth [] 2010 2016

/-- The series the provider computes on demoSt for iso ABC: 100 compounded
by 1.05 for the five years 2011-2015 and by 1.1 for 2016. -/
def demoSeries : List ℚ :=
  [100, 105, 441/4, 9261/80, 194481/1600, 4084101/32000, 44925111/320000]

/-- Provider whose growth table covers period 0 only, over a year range
that needs period 1: periods 1 and later have no growth row. -/
def demoMissSt : GDPpcState :=
  mkGDPpcProvider "low" "SSP3" demoBaseline [⟨"low", "SSP3", 2010, "ABC", 21/20⟩] [] 2010 2016

/-- Nightlight table exercising each adjustment case: ratio 0.5, ratio 0,
and NaN. -/
def demoNL : List NLRow :=
  [⟨"ABC.1", some (1/2)⟩, ⟨"ABC.2", some 0⟩, ⟨"ABC.3", none⟩]

/-- Provider with the demoNL nightlight table and a one-year range, whose
coarse series for ABC is [100]. -/
def demoNLSt : GDPpcState := mkGDPpcProvider "low" "SSP3" demoBaseline [] demoNL 2010 2010

/-- Growth table in which two models report different factors for the same
iso and year under the active scenario. -/
def demoCexGrowth : List GrowthRow :=
  [⟨"low", "SSP3", 2015, "ABC", 1⟩, ⟨"high", "SSP3", 2015, "ABC", 2⟩]

/-- Baseline table in which three models report 90, 110 and 100 for the
same coarse key under the active scenario and year. -/
def demoB3 : List BaselineRow :=
  [⟨"low", "SSP3", 2010, "ABC", 90⟩, ⟨"mid", "SSP3", 2010, "ABC", 110⟩,
   ⟨"high", "SSP3", 2010, "ABC", 100⟩]

theorem mem_dedupAppend [BEq α] [LawfulBEq α] (xs : List α) :
    ∀ (acc : List α) (a : α), a ∈ dedupAppend acc xs ↔ a ∈ acc ∨ a ∈ xs := by
  induction xs with
  | nil => intro acc a; simp [dedupAppend]
  | cons x xs ih =>
    intro acc a
    simp only [dedupAppend, ih]
    by_cases hx : acc.contains x
    · simp only [hx, if_pos]
      have hxa : x ∈ acc := by simpa using hx
      constructor
      · rintro (h | h)
        · exact Or.inl h
        · exact Or.inr (List.mem_cons_of_mem _ h)
      · rintro (h | h)
        · exact Or.inl h
        · rcases List.mem_cons.mp h with rfl | h
          · exact Or.inl hxa
          · exact Or.inr h
    · simp only [hx, if_neg, Bool.false_eq_true, not_false_iff]
      simp [List.mem_append, List.mem_cons, or_assoc, or_comm, or_left_comm]

theorem mem_keysInOrder [BEq α] [LawfulBEq α] (xs : List α) (a : α) :
    a ∈ keysInOrder xs ↔ a ∈ xs := by
  simpa [keysInOrder] using mem_dedupAppend xs [] a

theorem lookup_map_pair {α β : Type} [BEq α] [LawfulBEq α] (f : α → β) :
    ∀ (ks : List α) (a : α), a ∈ ks →
      (ks.map (fun k => (k, f k))).lookup a = some (f a) := by
  intro ks
  induction ks with
  | nil => intro a ha; cases ha
  | cons k ks ih =>
    intro a ha
    by_cases h : (a == k) = true
    · have hak : a = k := eq_of_beq h
      subst hak
      simp [List.lookup]
    · rcases List.mem_cons.mp ha with rfl | hmem
      · simp at h
      · simp only [List.map, List.lookup, h]
        exact ih a hmem

theorem getBestIsoAvailable_ne_nil {α : Type} (isoOf : α → String) (iso : String)
    (dfThis : List α) (dfAnyiam : List (String × List α)) (dfGlobal : List α)
    (hg : dfGlobal ≠ []) :
    getBestIsoAvailable isoOf iso dfThis dfAnyiam dfGlobal ≠ [] := by
  simp only [getBestIsoAvailable]
  split
  · next h => exact List.length_pos.mp h
  · split
    · split
      · next h => exact List.length_pos.mp h
      · exact hg
    · exact hg

theorem seriesFrom_length (g : Nat → ℚ) :
    ∀ (steps : Nat) (last : ℚ) (i : Nat), (seriesFrom g last i steps).length = steps := by
  intro steps
  induction steps with
  | zero => intro last i; rfl
  | succ n ih => intro last i; simp [seriesFrom, ih]

theorem seriesFrom_chain (g : Nat → ℚ) :
    ∀ (steps i : Nat) (last : ℚ) (k : Nat) (prev : ℚ),
      k + 1 < (last :: seriesFrom g last i steps).length →
      (last :: seriesFrom g last i steps).get? k = some prev →
      (last :: seriesFrom g last i steps).get? (k + 1) = some (prev * g ((i + k) / 5)) := by
  intro steps
  induction steps with
  | zero => intro i last k prev hk _; simp [seriesFrom] at hk
  | succ n ih =>
    intro i last k prev hk hprev
    cases k with
    | zero =>
      simp only [List.get?_cons_zero, Option.some.injEq] at hprev
      subst hprev
      simp [seriesFrom]
    | succ k =>
      have hS : seriesFrom g last i (n + 1) =
          (last * g (i / 5)) :: seriesFrom g (last * g (i / 5)) (i + 1) n := rfl
      have hlen : k + 1 < ((last * g (i / 5)) ::
          seriesFrom g (last * g (i / 5)) (i + 1) n).length := by
        have h1 : (last :: seriesFrom g last i (n + 1)).length = n + 2 := by
          simp [seriesFrom_length]
        have h2 : ((last * g (i / 5)) ::
            seriesFrom g (last * g (i / 5)) (i + 1) n).length = n + 1 := by
          simp [seriesFrom_length]
        rw [h1] at hk
        omega
      have hprev2 : ((last * g (i / 5)) ::
          seriesFrom g (last * g (i / 5)) (i + 1) n).get? k = some prev := by
        rw [hS] at hprev
        simpa using hprev
      have hres := ih (i + 1) (last * g (i / 5)) k prev hlen hprev2
      have e : i + (k + 1) = i + 1 + k := by omega
      rw [e]
      rw [hS]
      simpa using hres

theorem compoundLoop_eq_seriesFrom (dfg : List GRow) (g : Nat → ℚ) :
    ∀ (steps : Nat) (last : ℚ) (i : Nat),
      (∀ k, k < steps → growthLookup dfg ((i + k) / 5) = [g ((i + k) / 5)]) →
      compoundLoop dfg last i steps = Except.ok (seriesFrom g last i steps) := by
  intro steps
  induction steps with
  | zero => intro last i _; rfl
  | succ n ih =>
    intro last i h
    have h0 := h 0 (Nat.succ_pos n)
    simp only [Nat.add_zero] at h0
    have hrec := ih (last * g (i / 5)) (i + 1) (fun k hk => by
      have hh := h (k + 1) (by omega)
      have e : i + (k + 1) = i + 1 + k := by omega
      rw [e] at hh
      exact hh)
    simp [compoundLoop, h0, npItem, hrec, seriesFrom]

theorem compoundLoop_error_of_missing (dfg : List GRow) (g : Nat → ℚ) :
    ∀ (steps : Nat) (last : ℚ) (i k : Nat), k < steps →
      (∀ j, j < k → growthLookup dfg ((i + j) / 5) = [g ((i + j) / 5)]) →
      growthLookup dfg ((i + k) / 5) = [] →
      compoundLoop dfg last i steps =
        Except.error "can only convert an array of size 1 to a Python scalar" := by
  intro steps
  induction steps with
  | zero => intro last i k hk _ _; exact absurd hk (Nat.not_lt_zero k)
  | succ n ih =>
    intro last i k hk hbefore hmiss
    cases k with
    | zero =>
      simp only [Nat.add_zero] at hmiss
      simp [compoundLoop, hmiss, npItem]
    | succ k =>
      have h0 := hbefore 0 (Nat.succ_pos k)
      simp only [Nat.add_zero] at h0
      have hrec := ih (last * g (i / 5)) (i + 1) k (by omega)
        (fun j hj => by
          have hh := hbefore (j + 1) (by omega)
          have e : i + (j + 1) = i + 1 + j := by omega
          rwa [e] at hh)
        (by
          have e : i + (k + 1) = i + 1 + k := by omega
          rwa [e] at hmiss)
      simp [compoundLoop, h0, npItem, hrec]

theorem get_iso_timeseries_eq_of_unique (st : GDPpcState) (iso : String) (r : BRow)
    (g : Nat → ℚ) (hb : (resolveBaseline st iso).head? = some r)
    (hg : ∀ k, k < (st.stopyear - st.startyear).toNat →
      growthLookup (resolveGrowth st iso) (k / 5) = [g (k / 5)]) :
    get_iso_timeseries st iso =
      Except.ok (r.value :: seriesFrom g r.value 0 (st.stopyear - st.startyear).toNat) := by
  have hc := compoundLoop_eq_seriesFrom (resolveGrowth st iso) g
    (st.stopyear - st.startyear).toNat r.value 0
    (fun k hk => by simpa using hg k hk)
  simp [get_iso_timeseries, hb, hc]

theorem get_timeseries_of_no_nl_row (st : GDPpcState) (k : String)
    (h : st.nightlights.filter (fun r => r.hierid == k) = []) :
    get_timeseries st k = get_iso_timeseries st (pyTake k 3) := by
  cases hres : get_iso_timeseries st (pyTake k 3) with
  | error e => simp [get_timeseries, hres, h]
  | ok ys => simp [get_timeseries, hres, h]

theorem pyTake_of_length_eq (s : String) (h : s.length = 3) : pyTake s 3 = s := by
  cases s with
  | mk data =>
    simp only [pyTake]
    exact congrArg String.mk (List.take_of_length_le (le_of_eq h))

theorem baselineAnyiamOf_lookup (ssp : String) (sy : Int) (dfb : List BaselineRow)
    (iso : String)
    (h : (baselineSel ssp sy dfb).filter (fun r => r.iso == iso) ≠ []) :
    (baselineAnyiamOf ssp sy dfb).lookup iso =
      some [⟨iso, median (((baselineSel ssp sy dfb).filter (fun r => r.iso == iso)).map
        (fun r => r.value))⟩] := by
  have hmem : iso ∈ keysInOrder ((baselineSel ssp sy dfb).map (fun r => r.iso)) := by
    rw [mem_keysInOrder]
    obtain ⟨r, hr⟩ := List.exists_mem_of_ne_nil _ h
    have hrr := List.mem_filter.mp hr
    exact List.mem_map.mpr ⟨r, hrr.1, by simpa using hrr.2⟩
  exact lookup_map_pair _ _ iso hmem

theorem withYearindex_filter_model (iam ssp : String) (sy : Int) (dfg : List GrowthRow) :
    (withYearindex sy dfg).filter (fun p => p.1.scen == ssp && p.1.model == iam) =
      (withYearindex sy (dfg.filter (fun r => r.model == iam))).filter
        (fun p => p.1.scen == ssp && p.1.model == iam) := by
  induction dfg with
  | nil => rfl
  | cons r rs ih =>
    by_cases hm : (r.model == iam) = true
    · by_cases hs : (r.scen == ssp) = true
      · simp [withYearindex, List.filter, hm, hs] at ih ⊢
        exact ih
      · simp [withYearindex, List.filter, hm, hs] at ih ⊢
        exact ih
    · simp [withYearindex, List.filter, hm, Bool.and_eq_true] at ih ⊢
      exact ih

theorem growthGlobalOf_model_only (iam ssp : String) (sy : Int) (dfg : List GrowthRow) :
    growthGlobalOf iam ssp sy dfg =
      growthGlobalOf iam ssp sy (dfg.filter (fun r => r.model == iam)) := by
  simp only [growthGlobalOf]
  rw [withYearindex_filter_model iam ssp sy dfg]

/-- C1: for every baseline scalar B and resolved growth table containing
exactly one growth factor per period index, get_iso_timeseries yields a
series with value[startyear] = B and value[y] = value[y-1] multiplied by
the factor of period (y - 1 - startyear) / 5, for y from startyear + 1 to
stopyear. -/
theorem gdppc_iso_recurrence (st : GDPpcState) (iso : String) (B : ℚ) (g : Nat → ℚ)
    (hB : (resolveBaseline st iso).head?.map (fun r => r.value) = some B)
    (hg : ∀ k, k < (st.stopyear - st.startyear).toNat →
      growthLookup (resolveGrowth st iso) (k / 5) = [g (k / 5)]) :
    ∃ ys, get_iso_timeseries st iso = Except.ok ys ∧
      ys.length = (st.stopyear - st.startyear).toNat + 1 ∧
      ys.get? 0 = some B ∧
      ∀ k prev, k + 1 < ys.length → ys.get? k = some prev →
        ys.get? (k + 1) = some (prev * g (k / 5)) := by
  cases hh : (resolveBaseline st iso).head? with
  | none => rw [hh] at hB; simp at hB
  | some r =>
    rw [hh] at hB
    have hBv : r.value = B := by simpa using hB
    have heq := get_iso_timeseries_eq_of_unique st iso r g hh hg
    refine ⟨_, heq, ?_, ?_, ?_⟩
    · simp [seriesFrom_length]
    · simp [hBv]
    · intro k prev hk hprev
      have hch := seriesFrom_chain g (st.stopyear - st.startyear).toNat 0 r.value k prev
        hk hprev
      simpa using hch

/-- Witness for C1 on the demo provider (baseline 100, factor 1.05 for
period 0, 1.1 for period 1, years 2010-2016): in particular value[2015] =
100 * 1.05^5 and value[2016] = value[2015] * 1.1. -/
theorem gdppc_iso_recurrence_witness :
    get_iso_timeseries demoSt "ABC" = Except.ok demoSeries ∧
    demoSeries.get? 0 = some 100 ∧
    demoSeries.get? 5 = some (100 * (21/20)^5) ∧
    demoSeries.get? 6 = some (100 * (21/20)^5 * (11/10)) := by
  obtain ⟨ys, h1, h2, h3, h4⟩ := gdppc_iso_recurrence demoSt "ABC" 100 demoG
    (by decide) (by decide)
  have hcomp : get_iso_timeseries demoSt "ABC" = Except.ok demoSeries := by decide
  have e5 : (100 : ℚ) * (21/20)^5 = 4084101/32000 := by norm_num
  have e6 : (100 : ℚ) * (21/20)^5 * (11/10) = 44925111/320000 := by rw [e5]; norm_num
  refine ⟨hcomp, by decide, ?_, ?_⟩
  · rw [e5]; decide
  · rw [e6]; decide

/-- C2: the fallback resolver returns the specific table's selection for
the key whenever nonempty; else the aggregated selection when the key is in
the aggregated index and its selection is nonempty; else the global table
unfiltered, including the fallthrough when the key is indexed but its
selection is empty. -/
theorem resolver_priority (α : Type) (isoOf : α → String) (iso : String)
    (dfThis : List α) (dfAnyiam : List (String × List α)) (dfGlobal : List α) :
    (dfThis.filter (fun r => isoOf r == iso) ≠ [] →
      getBestIsoAvailable isoOf iso dfThis dfAnyiam dfGlobal =
        dfThis.filter (fun r => isoOf r == iso)) ∧
    (∀ rows, dfThis.filter (fun r => isoOf r == iso) = [] →
      dfAnyiam.lookup iso = some rows → rows ≠ [] →
      getBestIsoAvailable isoOf iso dfThis dfAnyiam dfGlobal = rows) ∧
    (dfThis.filter (fun r => isoOf r == iso) = [] → dfAnyiam.lookup iso = none →
      getBestIsoAvailable isoOf iso dfThis dfAnyiam dfGlobal = dfGlobal) ∧
    (dfThis.filter (fun r => isoOf r == iso) = [] → dfAnyiam.lookup iso = some [] →
      getBestIsoAvailable isoOf iso dfThis dfAnyiam dfGlobal = dfGlobal) := by
  refine ⟨?_, ?_, ?_, ?_⟩
  · intro h
    simp [getBestIsoAvailable, List.length_pos.mpr h]
  · intro rows hfil hlook hrows
    simp [getBestIsoAvailable, hfil, hlook, List.length_pos.mpr hrows]
  · intro hfil hlook
    simp [getBestIsoAvailable, hfil, hlook]
  · intro hfil hlook
    simp [getBestIsoAvailable, hfil, hlook]

/-- Witness for C2: a key absent from the specific tier but present in the
aggregated index with a nonempty selection resolves to the aggregated rows. -/
theorem resolver_priority_witness :
    getBestIsoAvailable BRow.iso "ABC" ([] : List BRow)
      [("ABC", [⟨"ABC", 5⟩])] [⟨"", 7⟩] = [⟨"ABC", 5⟩] := by
  exact (resolver_priority BRow BRow.iso "ABC" [] [("ABC", [⟨"ABC", 5⟩])] [⟨"", 7⟩]).2.1
    [⟨"ABC", 5⟩] (by decide) (by decide) (by decide)

/-- C3: get_timeseries applies the nightlight adjustment to the coarse
series: no matching row returns the coarse series unmodified; a NaN or zero
ratio returns 0.8 times it elementwise; any other ratio v returns the
series scaled by v elementwise. -/
theorem gdppc_adjustment_cases (st : GDPpcState) (hierid : String) (ys : List ℚ)
    (hc : get_iso_timeseries st (pyTake hierid 3) = Except.ok ys) :
    (st.nightlights.filter (fun r => r.hierid == hierid) = [] →
      get_timeseries st hierid = Except.ok ys) ∧
    (((st.nightlights.filter (fun r => r.hierid == hierid)).map
        (fun r => r.gdppc_rv)).head? = some none →
      get_timeseries st hierid = Except.ok (ys.map (fun x => (4/5 : ℚ) * x))) ∧
    (((st.nightlights.filter (fun r => r.hierid == hierid)).map
        (fun r => r.gdppc_rv)).head? = some (some 0) →
      get_timeseries st hierid = Except.ok (ys.map (fun x => (4/5 : ℚ) * x))) ∧
    (∀ v : ℚ, v ≠ 0 →
      ((st.nightlights.filter (fun r => r.hierid == hierid)).map
        (fun r => r.gdppc_rv)).head? = some (some v) →
      get_timeseries st hierid = Except.ok (ys.map (fun x => x * v))) := by
  refine ⟨?_, ?_, ?_, ?_⟩
  · intro h; simp [get_timeseries, hc, h]
  · intro h; simp [get_timeseries, hc, h]
  · intro h; simp [get_timeseries, hc, h]
  · intro v hv h; simp [get_timeseries, hc, h, hv]

/-- Witness for C3 on the demo provider with coarse series [100]: ratio 0.5
gives [50], ratio 0 gives [80], NaN gives [80], and a hierid with no
nightlight row gives [100]. -/
theorem gdppc_adjustment_cases_witness :
    get_timeseries demoNLSt "ABC.1" = Except.ok [50] ∧
    get_timeseries demoNLSt "ABC.2" = Except.ok [80] ∧
    get_timeseries demoNLSt "ABC.3" = Except.ok [80] ∧
    get_timeseries demoNLSt "ABC.9" = Except.ok [100] := by
  have h1 := (gdppc_adjustment_cases demoNLSt "ABC.1" [100] (by decide)).2.2.2
    (1/2) (by norm_num) (by decide)
  have h2 := (gdppc_adjustment_cases demoNLSt "ABC.2" [100] (by decide)).2.2.1 (by decide)
  have h3 := (gdppc_adjustment_cases demoNLSt "ABC.3" [100] (by decide)).2.1 (by decide)
  have h4 := (gdppc_adjustment_cases demoNLSt "ABC.9" [100] (by decide)).1 (by decide)
  refine ⟨?_, ?_, ?_, h4⟩
  · rw [h1]; decide
  · rw [h2]; decide
  · rw [h3]; decide

/-- C4 counterexample: on a provider whose resolved growth table for ABC
has no row for period index 1 inside the year range 2010-2016, the loop
raises (ValueError from .item() on a size-0 array) instead of producing a
series with a propagated missing value. -/
theorem gdppc_missing_period_cex :
    growthLookup (resolveGrowth demoMissSt "ABC") 1 = [] ∧
    get_iso_timeseries demoMissSt "ABC" =
      Except.error "can only convert an array of size 1 to a Python scalar" := by
  exact ⟨by decide, by decide⟩

/-- C4 amended: when some period index k / 5 within range has no growth row
(and the periods before it resolve uniquely, so the loop reaches it),
get_iso_timeseries raises the .item() ValueError; no series is returned. -/
theorem gdppc_missing_period_raises (st : GDPpcState) (iso : String) (r : BRow)
    (g : Nat → ℚ) (k : Nat)
    (hb : (resolveBaseline st iso).head? = some r)
    (hk : k < (st.stopyear - st.startyear).toNat)
    (hbefore : ∀ j, j < k → growthLookup (resolveGrowth st iso) (j / 5) = [g (j / 5)])
    (hmiss : growthLookup (resolveGrowth st iso) (k / 5) = []) :
    get_iso_timeseries st iso =
      Except.error "can only convert an array of size 1 to a Python scalar" := by
  have hc := compoundLoop_error_of_missing (resolveGrowth st iso) g
    (st.stopyear - st.startyear).toNat r.value 0 k hk
    (fun j hj => by simpa using hbefore j hj)
    (by simpa using hmiss)
  simp [get_iso_timeseries, hb, hc]

/-- Witness for the amended C4 at the concrete provider missing period 1. -/
theorem gdppc_missing_period_raises_witness :
    get_iso_timeseries demoMissSt "ABC" =
      Except.error "can only convert an array of size 1 to a Python scalar" := by
  exact gdppc_missing_period_raises demoMissSt "ABC" ⟨"ABC", 100⟩ demoG 5
    (by decide) (by decide) (by decide) (by decide)

/-- C5 counterexample: get_timeseries on a fresh (reset) space-time cache
returns the series but does not populate the cache: afterwards the region
is still absent from it. -/
theorem stc_get_timeseries_cex :
    ((stc_get_timeseries (fun _ => [100]) stc_reset "ZWE.2.2").2.cache.lookup "ZWE.2.2")
      = none := by decide

/-- C5 amended: get_timeseries delegates to the wrapped provider and
returns its series, but leaves the cache state unchanged (the cache is
populated only by get_value); the series returned does equal the entry a
get_value call stores for the region. -/
theorem stc_get_timeseries_delegates (wrapped : String → List ℚ) (st : CacheState)
    (region : String) (sy t : Int) :
    (stc_get_timeseries wrapped st region).1 = wrapped region ∧
    (stc_get_timeseries wrapped st region).2 = st ∧
    (stc_get_value wrapped sy stc_reset region t).2.cache.lookup region
      = some ((stc_get_timeseries wrapped st region).1) := by
  refine ⟨rfl, rfl, ?_⟩
  simp [stc_get_value, stc_reset, stc_get_timeseries, List.lookup]

/-- C6: get_value clamps below range to the first series entry (so the
value at startyear - 5 equals the value at startyear), returns
series[year - startyear] for year at or above startyear, and applies no
clamp above stopyear: with a series of length stopyear - startyear + 1, a
year above stopyear indexes out of bounds (none, the modelled IndexError). -/
theorem stc_get_value_spec (wrapped : String → List ℚ) (sy : Int) (st : CacheState)
    (region : String)
    (hcons : st.cache.lookup region = none ∨
      st.cache.lookup region = some (wrapped region)) :
    (∀ year : Int, year < sy →
      (stc_get_value wrapped sy st region year).1 = (wrapped region).get? 0) ∧
    ((stc_get_value wrapped sy st region (sy - 5)).1
      = (stc_get_value wrapped sy st region sy).1) ∧
    (∀ year : Int, sy ≤ year →
      (stc_get_value wrapped sy st region year).1
        = (wrapped region).get? (year - sy).toNat) ∧
    (∀ year ty : Int, ((wrapped region).length : Int) = ty - sy + 1 → ty < year →
      (stc_get_value wrapped sy st region year).1 = none) := by
  have hkey : ∀ time : Int, (stc_get_value wrapped sy st region time).1 =
      if time < sy then (wrapped region).get? 0
      else (wrapped region).get? (time - sy).toNat := by
    intro time
    rcases hcons with h | h
    · simp [stc_get_value, h, List.lookup]
    · simp [stc_get_value, h]
  refine ⟨?_, ?_, ?_, ?_⟩
  · intro year hy
    rw [hkey, if_pos hy]
  · rw [hkey, hkey, if_pos (by omega : sy - 5 < sy), if_neg (by omega : ¬ sy < sy)]
    have h0 : (sy - sy).toNat = 0 := by omega
    rw [h0]
  · intro year hy
    rw [hkey, if_neg (by omega : ¬ year < sy)]
  · intro year ty hlen hty
    have hge : ¬ year < sy := by omega
    rw [hkey, if_neg hge]
    exact List.get?_eq_none.mpr (by omega)

/-- Witness for C6 with series [1, 2, 3] over 2010-2012: year 2005 clamps
to the first entry, 2005 and 2010 agree, 2012 indexes the last entry, and
2013 is out of bounds. -/
theorem stc_get_value_spec_witness :
    (stc_get_value (fun _ => [1, 2, 3]) 2010 stc_reset "R" 2005).1 = some 1 ∧
    (stc_get_value (fun _ => [1, 2, 3]) 2010 stc_reset "R" 2005).1
      = (stc_get_value (fun _ => [1, 2, 3]) 2010 stc_reset "R" 2010).1 ∧
    (stc_get_value (fun _ => [1, 2, 3]) 2010 stc_reset "R" 2012).1 = some 3 ∧
    (stc_get_value (fun _ => [1, 2, 3]) 2010 stc_reset "R" 2013).1 = none := by
  have hs := stc_get_value_spec (fun _ => [1, 2, 3]) 2010 stc_reset "R" (Or.inl rfl)
  exact ⟨by decide, by decide, by decide, hs.2.2.2 2013 2012 (by decide) (by decide)⟩

/-- C7: on a constructed provider with stopyear at or above startyear and a
key whose resolved growth table has exactly one factor for each period
index in range, get_iso_timeseries returns a series of length exactly
stopyear - startyear + 1. -/
theorem gdppc_series_length (iam ssp : String) (dfb : List BaselineRow)
    (dfg : List GrowthRow) (dfn : List NLRow) (sy ty : Int) (iso : String) (g : Nat → ℚ)
    (hstop : sy ≤ ty)
    (hg : ∀ k, k < (ty - sy).toNat →
      growthLookup (resolveGrowth (mkGDPpcProvider iam ssp dfb dfg dfn sy ty) iso) (k / 5)
        = [g (k / 5)]) :
    ∃ ys, get_iso_timeseries (mkGDPpcProvider iam ssp dfb dfg dfn sy ty) iso
        = Except.ok ys ∧ (ys.length : Int) = ty - sy + 1 := by
  have hglob : (mkGDPpcProvider iam ssp dfb dfg dfn sy ty).baseline_global ≠ [] := by
    simp [mkGDPpcProvider, baselineGlobalOf]
  have hne : resolveBaseline (mkGDPpcProvider iam ssp dfb dfg dfn sy ty) iso ≠ [] :=
    getBestIsoAvailable_ne_nil _ _ _ _ _ hglob
  cases hh : (resolveBaseline (mkGDPpcProvider iam ssp dfb dfg dfn sy ty) iso).head? with
  | none => exact absurd (List.head?_eq_none_iff.mp hh) hne
  | some r =>
    have heq := get_iso_timeseries_eq_of_unique _ iso r g hh hg
    refine ⟨_, heq, ?_⟩
    have hlen : (r.value :: seriesFrom g r.value 0
        ((mkGDPpcProvider iam ssp dfb dfg dfn sy ty).stopyear -
          (mkGDPpcProvider iam ssp dfb dfg dfn sy ty).startyear).toNat).length
        = (ty - sy).toNat + 1 := by
      simp [seriesFrom_length, mkGDPpcProvider]
    rw [hlen]
    omega

/-- Witness for C7 on the demo provider: the series for 2010-2016 has
length 7. -/
theorem gdppc_series_length_witness :
    ∃ ys, get_iso_timeseries demoSt "ABC" = Except.ok ys ∧
      (ys.length : Int) = 2016 - 2010 + 1 := by
  obtain ⟨ys, h1, h2⟩ := gdppc_series_length "low" "SSP3" demoBaseline demoGrowth []
    2010 2016 "ABC" demoG (by norm_num) (by decide)
  exact ⟨ys, h1, h2⟩

/-- C8 counterexample: with two models reporting growth 1 and 2 for the
same key and year under the active scenario, the global growth tier keeps
only the active model's rows: its collapsed factor is 1, not the
cross-model median 3/2. -/
theorem gdppc_global_growth_cex :
    (mkGDPpcProvider "low" "SSP3" [] demoCexGrowth [] 2010 2100).growth_global.map
      (fun r => r.growth) = [1] ∧
    median [1, 2] = 3/2 ∧ (1 : ℚ) ≠ 3/2 := by
  exact ⟨by decide, by decide, by decide⟩

/-- C9: the demographic provider (pop.py lines 99-114) is meant to compute
per-coarse-key population growth factors at construction (each year's
population over the start-year population, defaulting to 1 when the
start-year value is absent), but the shipped code is a broken copy of
gdppc.py: the class body decorator name lru_cache is never imported in
pop.py, so importing the module raises NameError before any constructor can
run, and the constructor body itself references the unbound names
df_baseline, df_growth, iam and df_nightlights instead of df_ir_pops and
df_ssp. -/
theorem pop_classbody_raises :
    pyLookupName popModuleScope "lru_cache" =
      Except.error "NameError: name lru_cache is not defined" ∧
    pyLookupName popModuleScope "df_baseline" =
      Except.error "NameError: name df_baseline is not defined" := by
  exact ⟨by decide, by decide⟩

/-- C10: the coarse series under get_timeseries is determined by the first
three characters of the key alone: two keys with equal three-character
prefixes and no nightlight rows produce identical output, and a bare
three-character coarse key is itself accepted, returning its iso series. -/
theorem gdppc_prefix_determines (st : GDPpcState) :
    (∀ k1 k2 : String, pyTake k1 3 = pyTake k2 3 →
      st.nightlights.filter (fun r => r.hierid == k1) = [] →
      st.nightlights.filter (fun r => r.hierid == k2) = [] →
      get_timeseries st k1 = get_timeseries st k2) ∧
    (∀ k : String, k.length = 3 →
      st.nightlights.filter (fun r => r.hierid == k) = [] →
      get_timeseries st k = get_iso_timeseries st k) := by
  constructor
  · intro k1 k2 hpre h1 h2
    rw [get_timeseries_of_no_nl_row st k1 h1, get_timeseries_of_no_nl_row st k2 h2, hpre]
  · intro k hlen h
    rw [get_timeseries_of_no_nl_row st k h, pyTake_of_length_eq k hlen]

/-- Witness for C10 on the demo provider: ABC.1.2 and ABC.9.9 share the
prefix ABC and have no nightlight rows, so their series agree; the bare
key ABC returns the iso series itself. -/
theorem gdppc_prefix_determines_witness :
    get_timeseries demoSt "ABC.1.2" = get_timeseries demoSt "ABC.9.9" ∧
    get_timeseries demoSt "ABC" = get_iso_timeseries demoSt "ABC" := by
  have hp := gdppc_prefix_determines demoSt
  exact ⟨hp.1 "ABC.1.2" "ABC.9.9" (by decide) (by decide) (by decide),
    hp.2 "ABC" (by decide) (by decide)⟩

theorem insertSorted_length (x : ℚ) : ∀ ys : List ℚ,
    (insertSorted x ys).length = ys.length + 1 := by
  intro ys
  induction ys with
  | nil => rfl
  | cons y ys ih =>
    by_cases h : x ≤ y
    · simp [insertSorted, h]
    · simp [insertSorted, h, ih]

theorem mem_insertSorted (x : ℚ) : ∀ (ys : List ℚ) (z : ℚ),
    z ∈ insertSorted x ys → z = x ∨ z ∈ ys := by
  intro ys
  induction ys with
  | nil => intro z hz; simpa [insertSorted] using hz
  | cons y ys ih =>
    intro z hz
    by_cases h : x ≤ y
    · simp only [insertSorted, h, if_pos, List.mem_cons] at hz
      rcases hz with h1 | h1 | h1
      · exact Or.inl h1
      · subst h1; exact Or.inr (List.mem_cons_self _ _)
      · exact Or.inr (List.mem_cons_of_mem _ h1)
    · simp only [insertSorted, h, if_neg, List.mem_cons, not_false_iff] at hz
      rcases hz with h1 | h1
      · subst h1; exact Or.inr (List.mem_cons_self _ _)
      · rcases ih z h1 with h2 | h2
        · exact Or.inl h2
        · exact Or.inr (List.mem_cons_of_mem _ h2)

theorem sortRats_length : ∀ xs : List ℚ, (sortRats xs).length = xs.length := by
  intro xs
  induction xs with
  | nil => rfl
  | cons x xs ih =>
    show (insertSorted x (sortRats xs)).length = xs.length + 1
    rw [insertSorted_length, ih]

theorem mem_sortRats : ∀ (xs : List ℚ) (z : ℚ), z ∈ sortRats xs → z ∈ xs := by
  intro xs
  induction xs with
  | nil => intro z hz; simpa [sortRats] using hz
  | cons x xs ih =>
    intro z hz
    rcases mem_insertSorted x (sortRats xs) z hz with rfl | hmem
    · exact List.mem_cons_self _ _
    · exact List.mem_cons_of_mem _ (ih z hmem)

theorem median_const (c : ℚ) (xs : List ℚ) (hne : xs ≠ [])
    (hall : ∀ x ∈ xs, x = c) : median xs = c := by
  have hlen : (sortRats xs).length = xs.length := sortRats_length xs
  have hpos : 0 < (sortRats xs).length := by
    rw [hlen]; exact List.length_pos.mpr hne
  have hget : ∀ i : Nat, i < (sortRats xs).length → (sortRats xs).getD i 0 = c := by
    intro i hi
    have h1 : (sortRats xs).getD i 0 = (sortRats xs)[i] := by
      simp [List.getD_eq_getElem?_getD, List.getElem?_eq_getElem hi]
    rw [h1]
    exact hall _ (mem_sortRats xs _ (List.getElem_mem hi))
  simp only [median]
  split
  · exact hget _ (Nat.div_lt_self hpos one_lt_two)
  · rw [hget _ (by omega), hget _ (Nat.div_lt_self hpos one_lt_two)]
    ring

theorem withYearindex_snd (sy : Int) (dfg : List GrowthRow) (p : GrowthRow × Int)
    (hp : p ∈ withYearindex sy dfg) : p.2 = Int.tdiv (p.1.year - sy) 5 := by
  rcases List.mem_map.mp hp with ⟨r, _, hr⟩
  rw [← hr]

theorem growthAnyiamOf_lookup (ssp : String) (sy : Int) (dfg : List GrowthRow)
    (iso : String)
    (h : (growthSel ssp sy dfg).filter (fun p => p.1.iso == iso) ≠ []) :
    (growthAnyiamOf ssp sy dfg).lookup iso =
      some ((keysInOrder (((growthSel ssp sy dfg).filter (fun p => p.1.iso == iso)).map
          (fun p => p.1.year))).map
        (fun y =>
          ⟨iso,
            median ((((growthSel ssp sy dfg).filter (fun p => p.1.iso == iso)).filter
              (fun p => p.1.year == y)).map (fun p => (p.2 : ℚ))),
            median ((((growthSel ssp sy dfg).filter (fun p => p.1.iso == iso)).filter
              (fun p => p.1.year == y)).map (fun p => p.1.growth))⟩)) := by
  have hmem : iso ∈ keysInOrder ((growthSel ssp sy dfg).map (fun p => p.1.iso)) := by
    rw [mem_keysInOrder]
    obtain ⟨p, hp⟩ := List.exists_mem_of_ne_nil _ h
    have hpp := List.mem_filter.mp hp
    exact List.mem_map.mpr ⟨p, hpp.1, by simpa using hpp.2⟩
  exact lookup_map_pair _ _ iso hmem

/-- C8 amended: at construction the aggregated baseline tier collapses, per
key, the active scenario and reference-year rows across models by the
median of the value column (three models reporting 90, 100, 110 for a key
yield the aggregated baseline 100); the aggregated growth tier collapses,
per key and period (the code groups the scenario rows by the sampled year,
across models, and the collapsed row carries exactly that year's period
index as its yearindex) by the median of the numeric columns; the global
baseline tier is the median across all models' rows for the scenario and
reference year; the global growth tier, however, is computed from the
active model's rows only — dropping every other model's rows leaves it
unchanged; the median of an odd count is the middle value and of an even
count the average of the two middle values. -/
theorem gdppc_median_aggregation (ssp iam : String) (sy : Int) (dfb : List BaselineRow)
    (dfg : List GrowthRow) (iso : String) :
    ((baselineSel ssp sy dfb).filter (fun r => r.iso == iso) ≠ [] →
      (baselineAnyiamOf ssp sy dfb).lookup iso =
        some [⟨iso, median (((baselineSel ssp sy dfb).filter (fun r => r.iso == iso)).map
          (fun r => r.value))⟩]) ∧
    ((growthSel ssp sy dfg).filter (fun p => p.1.iso == iso) ≠ [] →
      (growthAnyiamOf ssp sy dfg).lookup iso =
        some ((keysInOrder (((growthSel ssp sy dfg).filter (fun p => p.1.iso == iso)).map
            (fun p => p.1.year))).map
          (fun y =>
            ⟨iso,
              median ((((growthSel ssp sy dfg).filter (fun p => p.1.iso == iso)).filter
                (fun p => p.1.year == y)).map (fun p => (p.2 : ℚ))),
              median ((((growthSel ssp sy dfg).filter (fun p => p.1.iso == iso)).filter
                (fun p => p.1.year == y)).map (fun p => p.1.growth))⟩))) ∧
    (∀ y : Int, (((growthSel ssp sy dfg).filter (fun p => p.1.iso == iso)).filter
        (fun p => p.1.year == y)) ≠ [] →
      median ((((growthSel ssp sy dfg).filter (fun p => p.1.iso == iso)).filter
        (fun p => p.1.year == y)).map (fun p => (p.2 : ℚ)))
        = ((Int.tdiv (y - sy) 5 : Int) : ℚ)) ∧
    (baselineGlobalOf ssp sy dfb =
      [⟨"", median ((dfb.filter (fun r => r.scen == ssp && r.year == sy)).map
        (fun r => r.value))⟩]) ∧
    (growthGlobalOf iam ssp sy dfg =
      growthGlobalOf iam ssp sy (dfg.filter (fun r => r.model == iam))) ∧
    median [90, 100, 110] = 100 ∧
    median [100, 90, 120, 110] = 105 := by
  refine ⟨fun h => baselineAnyiamOf_lookup ssp sy dfb iso h,
    fun h => growthAnyiamOf_lookup ssp sy dfg iso h, ?_, rfl,
    growthGlobalOf_model_only iam ssp sy dfg, by decide, by decide⟩
  intro y hy
  apply median_const
  · simpa using hy
  · intro x hx
    rcases List.mem_map.mp hx with ⟨p, hp, hxe⟩
    have hpf := List.mem_filter.mp hp
    have hyr : p.1.year = y := by simpa using hpf.2
    have hpf2 := List.mem_filter.mp hpf.1
    have hgs : p ∈ (withYearindex sy dfg).filter (fun q => q.1.scen == ssp) := hpf2.1
    have hmw := (List.mem_filter.mp hgs).1
    have hsnd := withYearindex_snd sy dfg p hmw
    rw [← hxe, hsnd, hyr]

/-- Witness for the amended C8: three models reporting 90, 110 and 100 for
key ABC collapse to the aggregated baseline 100, and two models reporting
growth 1 and 2 for ABC in year 2015 collapse to the single aggregated
growth row with period index 1 and the cross-model median 3/2. -/
theorem gdppc_median_aggregation_witness :
    (baselineAnyiamOf "SSP3" 2010 demoB3).lookup "ABC" = some [⟨"ABC", 100⟩] ∧
    (growthAnyiamOf "SSP3" 2010 demoCexGrowth).lookup "ABC"
      = some [⟨"ABC", 1, 3/2⟩] := by
  have h := gdppc_median_aggregation "SSP3" "low" 2010 demoB3 demoCexGrowth "ABC"
  constructor
  · have h1 := h.1 (by decide)
    rw [h1]
    decide
  · have h2 := h.2.1 (by decide)
    rw [h2]
    decide
